import Mathlib

/-!
Shallow embedding of the EV GIS Prospector single-page application
(src/index.js) and proofs about the claims of its specification.

The application is a React component `App` with five pieces of state
(formData, loading, gisData, error, hoveredSite), an AI query client
`callGeminiWithRetry` with a fixed three-attempt retry loop, a submit
handler `handleSubmit`, and a map wrapper `RealMap` that keeps a list of
markers (`markersRef`) in sync with the current geospatial result and
wires mouseover/mouseout handlers on every marker.

The embedding below translates that code into pure Lean functions and an
explicit step relation on an `AppState` record.  Asynchrony is modelled
by splitting `handleSubmit` into its synchronous part (validation and the
state writes before the first `await`) and the completion part (the state
writes performed once `callGeminiWithRetry` settles); the single network
attempt inside the retry loop (fetch, HTTP status check, JSON extraction)
is modelled by an `AttemptOutcome` oracle indexed by the attempt number.
Floating point coordinates are carried as `Int` values: no claim performs
arithmetic on them, they only flow from the parsed result into markers
and the hover card.
-/

set_option maxRecDepth 40000

namespace EvGis

/-! ## Data model (spec section 3, src/index.js responseSchema lines 121-147) -/

/-- One AI-proposed charging site, as described by the response schema
`sites.items` of src/index.js (id, lat, lng, name, rationale, chargers). -/
structure Site where
  id : Int
  lat : Int
  lng : Int
  name : String
  rationale : String
  chargers : String
deriving DecidableEq, Repr

/-- The `cityCenter` object of the response schema (lat, lng). -/
structure Coord where
  lat : Int
  lng : Int
deriving DecidableEq, Repr

/-- The complete output of one successful query: `{ cityCenter, sites }`
(the parsed JSON stored in the `gisData` state). -/
structure GeospatialResult where
  cityCenter : Coord
  sites : List Site
deriving DecidableEq, Repr

/-- The form state initialised at src/index.js lines 92-98. -/
structure FormData where
  location : String
  demographics : String
  traffic : String
  amenities : String
  budget : String
deriving DecidableEq, Repr

/-- Initial form state: `useState({location: '', demographics: 'urban-dense',
traffic: 'highway-adjacent', amenities: 'retail', budget: 'medium'})`. -/
def initialFormData : FormData :=
  { location := ""
    demographics := "urban-dense"
    traffic := "highway-adjacent"
    amenities := "retail"
    budget := "medium" }

/-! ## JavaScript string primitives used by the code -/

/-- Drop leading and trailing whitespace characters from a character list,
modelling `String.prototype.trim` as used at src/index.js line 176. -/
def trimChars (cs : List Char) : List Char :=
  ((cs.dropWhile Char.isWhitespace).reverse.dropWhile Char.isWhitespace).reverse

/-- Model of the JavaScript `location.trim()` call. -/
def jsTrim (s : String) : String :=
  ⟨trimChars s.data⟩

/-- Replace the first occurrence of a hyphen by a space in a character
list.  JavaScript `String.prototype.replace` with a plain string pattern,
as in `formData.demographics.replace('-', ' ')` (src/index.js lines
191-193), replaces only the FIRST occurrence of the pattern. -/
def replaceFirstHyphenChars : List Char → List Char
  | [] => []
  | c :: cs => if c == '-' then ' ' :: cs else c :: replaceFirstHyphenChars cs

/-- Model of the JavaScript expression `value.replace('-', ' ')`. -/
def jsReplaceFirstHyphen (s : String) : String :=
  ⟨replaceFirstHyphenChars s.data⟩

/-! ## The prompt template (src/index.js lines 186-197)

The template literal is split at its five interpolation holes; each
`promptPart` string below reproduces the literal text between the holes
character for character, including the six-space indentation of the
template and the trailing newline plus four spaces before the closing
backtick. -/

def promptPart1 : String :=
  "\n      Determine the central coordinates (lat/lng) for: "

def promptPart2 : String :=
  ".\n      Then, recommend the top 3 optimal hypothetical sites to build NEW EV charging infrastructure in or around that exact location.\n      \n      Criteria constraints:\n      - Demographics / Area Type: "

def promptPart3 : String :=
  "\n      - Traffic Profile: "

def promptPart4 : String :=
  "\n      - Nearby Amenities: "

def promptPart5 : String :=
  "\n      - Expected Scale/Budget: "

def promptPart6 : String :=
  "\n      \n      CRITICAL: Ensure the coordinates (lat/lng) for the 3 sites are realistic and actually located near the requested city center (e.g. within a 0.05 to 0.1 degree radius), accurately reflecting the demographics (e.g., near a highway if requested).\n    "

/-- The prompt string built inside `handleSubmit` (src/index.js lines
186-197): the template literal with the five form values interpolated,
the three select values passed through `.replace('-', ' ')`. -/
def buildPrompt (fd : FormData) : String :=
  promptPart1 ++ fd.location ++
  promptPart2 ++ jsReplaceFirstHyphen fd.demographics ++
  promptPart3 ++ jsReplaceFirstHyphen fd.traffic ++
  promptPart4 ++ jsReplaceFirstHyphen fd.amenities ++
  promptPart5 ++ fd.budget ++
  promptPart6

/-! ## The AI query client `callGeminiWithRetry` (src/index.js lines 110-172)

One iteration of the retry loop performs: `fetch` (which may reject with a
network error), the `response.ok` check (a non-2xx status throws
`API request failed with status N`), and the JSON extraction
`JSON.parse(data.candidates?.[0]?.content?.parts?.[0]?.text)` (a missing
or malformed body throws a parse error).  `AttemptOutcome` enumerates
those cases for one attempt; the oracle `Nat → AttemptOutcome` gives the
outcome of each attempt index. -/

inductive AttemptOutcome where
  /-- The `fetch` promise rejected (network failure). -/
  | networkFailure (msg : String)
  /-- `response.ok` was false: the code throws
  `API request failed with status ${status}`. -/
  | httpError (status : Nat)
  /-- The body had no extractable text or `JSON.parse` threw. -/
  | badBody (msg : String)
  /-- A 2xx response whose body parsed into a result. -/
  | success (r : GeospatialResult)
deriving DecidableEq, Repr

/-- Whether an attempt reached the `return JSON.parse(jsonString)` line. -/
def AttemptOutcome.isSuccess : AttemptOutcome → Bool
  | .success _ => true
  | _ => false

/-- What one iteration of the try block yields: the parsed result, or the
error captured by `catch (err)`. -/
def attemptResult : AttemptOutcome → Except String GeospatialResult
  | .networkFailure msg => Except.error msg
  | .httpError status => Except.error ("API request failed with status " ++ toString status)
  | .badBody msg => Except.error msg
  | .success r => Except.ok r

/-- The `delays` array of src/index.js line 150. -/
def retryDelays : List Nat := [500, 1000]

/-- The generic user-facing error thrown at src/index.js line 171 after
the loop exhausts its attempts. -/
def connectionErrorMsg : String := "Failed to connect to AI. Please try again."

/-- What a full run of `callGeminiWithRetry` did: how many attempts were
started, the sequence of waits (in milliseconds, in the order they were
performed), and the value returned or the error thrown. -/
structure RetryTrace where
  attemptsMade : Nat
  delays : List Nat
  outcome : Except String GeospatialResult
deriving Repr

/-- The loop `for (let i = 0; i <= 2; i++)` of src/index.js lines
153-170, unrolled over the list of remaining loop indices: a successful
attempt returns at once; a failed attempt waits `delays[i]` when `i < 2`
and continues; an exhausted loop throws the generic message (line 171,
discarding `lastError`). -/
def retryGo (client : Nat → AttemptOutcome) : List Nat → RetryTrace
  | [] => ⟨0, [], Except.error connectionErrorMsg⟩
  | i :: rest =>
    match attemptResult (client i) with
    | Except.ok r => ⟨1, [], Except.ok r⟩
    | Except.error _ =>
      let t := retryGo client rest
      ⟨t.attemptsMade + 1, (if i < 2 then [retryDelays.getD i 0] else []) ++ t.delays, t.outcome⟩

/-- `callGeminiWithRetry` (src/index.js lines 110-172) with the network
abstracted by the per-attempt oracle: the loop indices are 0, 1, 2. -/
def callGeminiWithRetry (client : Nat → AttemptOutcome) : RetryTrace :=
  retryGo client [0, 1, 2]

/-! ## The application state

`AppState` packs the five `useState` cells of `App` (src/index.js lines
92-103) together with `markersRef.current` of `RealMap` (line 8), the
list of markers currently placed on the map; a marker is identified by
the site captured by its event handlers.  The one-time map/tile/icon
bootstrap, the `flyTo` animation and the visual marker icon have no
bearing on any claim and are not modelled. -/

structure AppState where
  formData : FormData
  loading : Bool
  gisData : Option GeospatialResult
  error : Option String
  hoveredSite : Option Site
  markers : List Site
deriving DecidableEq, Repr

/-- The state after the first render: empty form, not loading, no result,
no error, nothing hovered, and no marker placed. -/
def initialState : AppState :=
  { formData := initialFormData
    loading := false
    gisData := none
    error := none
    hoveredSite := none
    markers := [] }

/-- `handleInputChange` (src/index.js lines 105-108): the computed-key
spread `{...prev, [name]: value}` for the five known form fields. -/
def applyInput (n v : String) (fd : FormData) : FormData :=
  if n = "location" then { fd with location := v }
  else if n = "demographics" then { fd with demographics := v }
  else if n = "traffic" then { fd with traffic := v }
  else if n = "amenities" then { fd with amenities := v }
  else if n = "budget" then { fd with budget := v }
  else fd

/-- The option values of the demographics select (src/index.js lines 266-269). -/
def demographicsOptions : List String :=
  ["urban-dense", "suburban-residential", "commercial-district", "rural-corridor"]

/-- The option values of the traffic select (src/index.js lines 285-288). -/
def trafficOptions : List String :=
  ["highway-adjacent", "local-commuter", "destination-traffic", "ride-share-hub"]

/-- The option values of the amenities select (src/index.js lines 304-308). -/
def amenitiesOptions : List String :=
  ["retail", "dining", "workplaces", "parks-recreation", "none-isolated"]

/-- The fixed validation message set at src/index.js line 177. -/
def locationErrorMsg : String := "Please enter a target location (City, State, or Region)."

/-- The synchronous part of `handleSubmit` (src/index.js lines 174-184):
the guard `if (!formData.location.trim())` either sets the validation
error and returns, or sets loading and clears error, result and hover
before the awaited call. -/
def submitSync (st : AppState) : AppState :=
  if jsTrim st.formData.location = "" then
    { st with error := some locationErrorMsg }
  else
    { st with loading := true, error := none, gisData := none, hoveredSite := none }

/-- The `try/catch/finally` tail of `handleSubmit` (src/index.js lines
199-206): on success store the parsed result, on failure store the thrown
message; in both branches `finally` clears loading. -/
def applyOutcome : Except String GeospatialResult → AppState → AppState
  | Except.ok r, st => { st with gisData := some r, loading := false }
  | Except.error m, st => { st with error := some m, loading := false }

/-- `markersRef.current.forEach(marker => removeLayer(marker));
markersRef.current = []` (src/index.js lines 59-60). -/
def clearAllMarkers (_ms : List Site) : List Site := []

/-- `sites.forEach(site => ... markersRef.current.push(marker))`
(src/index.js lines 76-83): one marker per site, appended in order. -/
def addAllMarkers (sites ms : List Site) : List Site := ms ++ sites

/-- The marker-updating part of the `RealMap` effect (src/index.js lines
49-84): it runs on every `gisData` change, but only a NON-NULL `gisData`
clears the old markers and places the new ones; a null `gisData` leaves
the markers of the previous result on the map. -/
def mapSync (st : AppState) : AppState :=
  match st.gisData with
  | some r => { st with markers := addAllMarkers r.sites (clearAllMarkers st.markers) }
  | none => st

/-- The completion of a submission already past validation: apply the
retry outcome to the state, then let the `RealMap` effect react to the
new `gisData`. -/
def submitAsync (client : Nat → AttemptOutcome) (st : AppState) : AppState :=
  mapSync (applyOutcome (callGeminiWithRetry client).outcome st)

/-- What one whole `handleSubmit` call (src/index.js lines 174-207) does:
the state right after its synchronous part, the state once the call has
settled, and whether the AI query client was invoked at all. -/
structure SubmitOutcome where
  afterSync : AppState
  final : AppState
  networkCalled : Bool
deriving Repr

/-- One whole `handleSubmit` call against a given attempt oracle. -/
def runSubmit (client : Nat → AttemptOutcome) (st : AppState) : SubmitOutcome :=
  if jsTrim st.formData.location = "" then
    ⟨submitSync st, submitSync st, false⟩
  else
    ⟨submitSync st, submitAsync client (submitSync st), true⟩

/-- The closure `() => setHoveredSite(site)` wired as the `mouseover`
handler of the marker placed for `site` (src/index.js line 79). -/
def markerMouseover (site : Site) (st : AppState) : AppState :=
  { st with hoveredSite := some site }

/-- The closure `() => setHoveredSite(null)` wired as the `mouseout`
handler of every marker (src/index.js line 80). -/
def markerMouseout (st : AppState) : AppState :=
  { st with hoveredSite := none }

/-! ## The event step relation

Each constructor is one event the user interface can deliver: typing into
the location input, picking an option in one of the three selects (there
is no form control named `budget`), submitting the form (the submit
button is disabled while loading, src/index.js line 315), the completion
of an in-flight submission, and the mouseover/mouseout events of a marker
currently placed on the map. -/

inductive Step : AppState → AppState → Prop where
  | inputLocation (st : AppState) (v : String) :
      Step st { st with formData := applyInput "location" v st.formData }
  | inputDemographics (st : AppState) (v : String) (hv : v ∈ demographicsOptions) :
      Step st { st with formData := applyInput "demographics" v st.formData }
  | inputTraffic (st : AppState) (v : String) (hv : v ∈ trafficOptions) :
      Step st { st with formData := applyInput "traffic" v st.formData }
  | inputAmenities (st : AppState) (v : String) (hv : v ∈ amenitiesOptions) :
      Step st { st with formData := applyInput "amenities" v st.formData }
  | submit (st : AppState) (h : st.loading = false) :
      Step st (submitSync st)
  | complete (st : AppState) (client : Nat → AttemptOutcome) (h : st.loading = true) :
      Step st (submitAsync client st)
  | markerOver (st : AppState) (s : Site) (hs : s ∈ st.markers) :
      Step st (markerMouseover s st)
  | markerOut (st : AppState) :
      Step st (markerMouseout st)

/-- States the running application can be in: the initial render followed
by any sequence of events. -/
inductive Reachable : AppState → Prop where
  | init : Reachable initialState
  | step {st st2 : AppState} : Reachable st → Step st st2 → Reachable st2

/-! ## The overlay layer of `App` (src/index.js lines 344-400)

The JSX over the map area renders the loading overlay when `loading`
(line 345), the hover detail card when `hoveredSite && !loading` (line
354), the initial placeholder when `!gisData && !loading` (line 387), and
the bare map when none of those conditions holds. -/

def rendersLoadingOverlay (st : AppState) : Bool := st.loading

def rendersHoverCard (st : AppState) : Bool := st.hoveredSite.isSome && !st.loading

def rendersPlaceholder (st : AppState) : Bool := st.gisData.isNone && !st.loading

def rendersBareMap (st : AppState) : Bool :=
  !rendersLoadingOverlay st && !rendersHoverCard st && !rendersPlaceholder st

/-- How many of the four mutually-exclusive-by-specification overlay
states are rendered at once. -/
def overlayCount (st : AppState) : Nat :=
  (cond (rendersLoadingOverlay st) 1 0) + (cond (rendersHoverCard st) 1 0) +
  (cond (rendersPlaceholder st) 1 0) + (cond (rendersBareMap st) 1 0)

/-! ## Substring containment

The specification asks that the prompt "literally contain" the parameter
values; `strContains hay needle` decides whether `needle` occurs as a
contiguous substring of `hay`. -/

/-- Whether `needle` is a prefix of the second list. -/
def subAt : List Char → List Char → Bool
  | [], _ => true
  | _ :: _, [] => false
  | a :: as, b :: bs => a == b && subAt as bs

/-- Whether `needle` occurs as a prefix of some suffix of the list. -/
def hasSub (needle : List Char) : List Char → Bool
  | [] => subAt needle []
  | c :: cs => subAt needle (c :: cs) || hasSub needle cs

/-- Whether `needle` occurs as a contiguous substring of `hay`. -/
def strContains (hay needle : String) : Bool := hasSub needle.data hay.data

theorem subAt_append (n t : List Char) : subAt n (n ++ t) = true := by
  induction n with
  | nil => rfl
  | cons a as ih => simp [subAt, ih]

theorem hasSub_nil (h : List Char) : hasSub [] h = true := by
  induction h with
  | nil => rfl
  | cons c cs ih => simp [hasSub, ih, subAt]

theorem hasSub_self_append (n t : List Char) : hasSub n (n ++ t) = true := by
  cases n with
  | nil => exact hasSub_nil t
  | cons c cs =>
    simp only [hasSub, Bool.or_eq_true]
    exact Or.inl (subAt_append (c :: cs) t)

theorem hasSub_append_left (a : List Char) {n h : List Char} (H : hasSub n h = true) :
    hasSub n (a ++ h) = true := by
  induction a with
  | nil => exact H
  | cons c cs ih => simp [hasSub, ih]

/-- The character content of the prompt, written out as the
right-associated concatenation of its eleven segments. -/
theorem buildPrompt_data (fd : FormData) :
    (buildPrompt fd).data =
      promptPart1.data ++ (fd.location.data ++ (promptPart2.data ++
      ((jsReplaceFirstHyphen fd.demographics).data ++ (promptPart3.data ++
      ((jsReplaceFirstHyphen fd.traffic).data ++ (promptPart4.data ++
      ((jsReplaceFirstHyphen fd.amenities).data ++ (promptPart5.data ++
      (fd.budget.data ++ promptPart6.data))))))))) := by
  simp [buildPrompt, String.data_append]

/-! ## Concrete sample data used by witnesses and counterexamples -/

def sampleSite : Site :=
  { id := 1
    lat := 25
    lng := -80
    name := "Brickell Station Hub"
    rationale := "Dense urban core with heavy commuter flow"
    chargers := "8x 150kW DC" }

def sampleResult : GeospatialResult :=
  { cityCenter := { lat := 25, lng := -80 }, sites := [sampleSite] }

/-- An attempt oracle whose first attempt already succeeds. -/
def okClient : Nat → AttemptOutcome := fun _ => AttemptOutcome.success sampleResult

/-- An attempt oracle for which every attempt fails with a network error. -/
def failClient : Nat → AttemptOutcome :=
  fun _ => AttemptOutcome.networkFailure "TypeError: Failed to fetch"

/-- An attempt oracle that fails twice with a 503 and succeeds on the
third attempt. -/
def thirdTryClient : Nat → AttemptOutcome := fun i =>
  if i = 2 then AttemptOutcome.success sampleResult else AttemptOutcome.httpError 503

/-- The input parameters of spec testable property 6: location
"Miami, FL" with the default select values. -/
def miamiForm : FormData :=
  { location := "Miami, FL"
    demographics := "urban-dense"
    traffic := "highway-adjacent"
    amenities := "retail"
    budget := "medium" }

/-! ## A concrete run of the application

Typing a location, submitting successfully (one site comes back and its
marker is placed), submitting again with the network down, and then
hovering the marker left over from the first result. -/

def stateTyped : AppState :=
  { initialState with formData := applyInput "location" "Miami, FL" initialState.formData }

def stateLoading1 : AppState := submitSync stateTyped

def stateSuccess : AppState := submitAsync okClient stateLoading1

def stateLoading2 : AppState := submitSync stateSuccess

def stateFailedSecond : AppState := submitAsync failClient stateLoading2

def stateStaleHover : AppState := markerMouseover sampleSite stateFailedSecond

/-- The form state after picking the ride-share option in the traffic
select. -/
def stateRideShare : AppState :=
  { initialState with formData := applyInput "traffic" "ride-share-hub" initialState.formData }

theorem reachable_stateSuccess : Reachable stateSuccess :=
  Reachable.step
    (Reachable.step
      (Reachable.step Reachable.init (Step.inputLocation initialState "Miami, FL"))
      (Step.submit stateTyped rfl))
    (Step.complete stateLoading1 okClient (by decide))

theorem reachable_stateFailedSecond : Reachable stateFailedSecond :=
  Reachable.step
    (Reachable.step reachable_stateSuccess (Step.submit stateSuccess (by decide)))
    (Step.complete stateLoading2 failClient (by decide))

theorem reachable_stateStaleHover : Reachable stateStaleHover :=
  Reachable.step reachable_stateFailedSecond
    (Step.markerOver stateFailedSecond sampleSite (by decide))

theorem reachable_stateRideShare : Reachable stateRideShare :=
  Reachable.step Reachable.init
    (Step.inputTraffic initialState "ride-share-hub" (by decide))

/-! ## Helper lemmas about the retry loop -/

theorem attemptResult_of_fail {a : AttemptOutcome} (h : a.isSuccess = false) :
    ∃ m, attemptResult a = Except.error m := by
  cases a with
  | networkFailure m => exact ⟨m, rfl⟩
  | httpError s => exact ⟨_, rfl⟩
  | badBody m => exact ⟨m, rfl⟩
  | success r => simp [AttemptOutcome.isSuccess] at h

theorem attemptResult_of_success {a : AttemptOutcome} (h : a.isSuccess = true) :
    ∃ r, a = AttemptOutcome.success r ∧ attemptResult a = Except.ok r := by
  cases a with
  | success r => exact ⟨r, rfl, rfl⟩
  | networkFailure m => simp [AttemptOutcome.isSuccess] at h
  | httpError s => simp [AttemptOutcome.isSuccess] at h
  | badBody m => simp [AttemptOutcome.isSuccess] at h

theorem retry_eq_of_ok0 {client : Nat → AttemptOutcome} {r : GeospatialResult}
    (h0 : attemptResult (client 0) = Except.ok r) :
    callGeminiWithRetry client = ⟨1, [], Except.ok r⟩ := by
  simp [callGeminiWithRetry, retryGo, h0]

theorem retry_eq_of_ok1 {client : Nat → AttemptOutcome} {m0 : String} {r : GeospatialResult}
    (h0 : attemptResult (client 0) = Except.error m0)
    (h1 : attemptResult (client 1) = Except.ok r) :
    callGeminiWithRetry client = ⟨2, [500], Except.ok r⟩ := by
  simp [callGeminiWithRetry, retryGo, h0, h1, retryDelays]

theorem retry_eq_of_ok2 {client : Nat → AttemptOutcome} {m0 m1 : String} {r : GeospatialResult}
    (h0 : attemptResult (client 0) = Except.error m0)
    (h1 : attemptResult (client 1) = Except.error m1)
    (h2 : attemptResult (client 2) = Except.ok r) :
    callGeminiWithRetry client = ⟨3, [500, 1000], Except.ok r⟩ := by
  simp [callGeminiWithRetry, retryGo, h0, h1, h2, retryDelays]

theorem retry_eq_of_allfail {client : Nat → AttemptOutcome} {m0 m1 m2 : String}
    (h0 : attemptResult (client 0) = Except.error m0)
    (h1 : attemptResult (client 1) = Except.error m1)
    (h2 : attemptResult (client 2) = Except.error m2) :
    callGeminiWithRetry client = ⟨3, [500, 1000], Except.error connectionErrorMsg⟩ := by
  simp [callGeminiWithRetry, retryGo, h0, h1, h2, retryDelays]

/-- C1: for every attempt oracle, `callGeminiWithRetry` makes at most 3
attempts; a failed first attempt is followed by a 500ms wait and a second
attempt; failed first and second attempts are followed by waits of 500ms
then 1000ms (in that order) and a third attempt; when all three attempts
throw, the loop throws exactly the message "Failed to connect to AI.
Please try again."; and a returned result always comes from one of the
three attempts succeeding. -/
theorem callGeminiWithRetry_policy (client : Nat → AttemptOutcome) :
    (callGeminiWithRetry client).attemptsMade ≤ 3 ∧
    ((client 0).isSuccess = false →
      2 ≤ (callGeminiWithRetry client).attemptsMade ∧
      (callGeminiWithRetry client).delays.head? = some 500) ∧
    ((client 0).isSuccess = false → (client 1).isSuccess = false →
      (callGeminiWithRetry client).attemptsMade = 3 ∧
      (callGeminiWithRetry client).delays = [500, 1000]) ∧
    ((client 0).isSuccess = false → (client 1).isSuccess = false →
      (client 2).isSuccess = false →
      (callGeminiWithRetry client).outcome = Except.error connectionErrorMsg) ∧
    (∀ r, (callGeminiWithRetry client).outcome = Except.ok r →
      ∃ i, i < 3 ∧ client i = AttemptOutcome.success r) := by
  cases s0 : (client 0).isSuccess with
  | true =>
    obtain ⟨r0, hc0, ha0⟩ := attemptResult_of_success s0
    rw [retry_eq_of_ok0 ha0]
    refine ⟨by norm_num, ?_, ?_, ?_, ?_⟩
    · intro h; simp at h
    · intro h _; simp at h
    · intro h _ _; simp at h
    · intro r hr
      have hr2 : Except.ok (ε := String) r0 = Except.ok r := hr
      injection hr2 with h
      exact ⟨0, by decide, h ▸ hc0⟩
  | false =>
    obtain ⟨m0, e0⟩ := attemptResult_of_fail s0
    cases s1 : (client 1).isSuccess with
    | true =>
      obtain ⟨r1, hc1, ha1⟩ := attemptResult_of_success s1
      rw [retry_eq_of_ok1 e0 ha1]
      refine ⟨by norm_num, fun _ => ⟨by norm_num, rfl⟩, ?_, ?_, ?_⟩
      · intro _ h; simp at h
      · intro _ h _; simp at h
      · intro r hr
        have hr2 : Except.ok (ε := String) r1 = Except.ok r := hr
        injection hr2 with h
        exact ⟨1, by decide, h ▸ hc1⟩
    | false =>
      obtain ⟨m1, e1⟩ := attemptResult_of_fail s1
      cases s2 : (client 2).isSuccess with
      | true =>
        obtain ⟨r2, hc2, ha2⟩ := attemptResult_of_success s2
        rw [retry_eq_of_ok2 e0 e1 ha2]
        refine ⟨by norm_num, fun _ => ⟨by norm_num, rfl⟩, fun _ _ => ⟨rfl, rfl⟩, ?_, ?_⟩
        · intro _ _ h; simp at h
        · intro r hr
          have hr2 : Except.ok (ε := String) r2 = Except.ok r := hr
          injection hr2 with h
          exact ⟨2, by decide, h ▸ hc2⟩
      | false =>
        obtain ⟨m2, e2⟩ := attemptResult_of_fail s2
        rw [retry_eq_of_allfail e0 e1 e2]
        refine ⟨by norm_num, fun _ => ⟨by norm_num, rfl⟩, fun _ _ => ⟨rfl, rfl⟩, fun _ _ _ => rfl, ?_⟩
        intro r hr
        have hr2 : Except.error (α := GeospatialResult) connectionErrorMsg = Except.ok r := hr
        cases hr2

/-- The state after typing a whitespace-only location into the form. -/
def stateWhitespaceLoc : AppState :=
  { initialState with formData := applyInput "location" "   " initialState.formData }

/-- C2: submitting while the location trims to the empty string invokes
no network call, overwrites the error state with the fixed validation
message, changes nothing else, and never enters the loading state. -/
theorem submit_blank_location (client : Nat → AttemptOutcome) (st : AppState)
    (h : jsTrim st.formData.location = "") :
    (runSubmit client st).networkCalled = false ∧
    (runSubmit client st).final.error = some locationErrorMsg ∧
    (runSubmit client st).final.loading = st.loading ∧
    (runSubmit client st).afterSync = (runSubmit client st).final ∧
    (runSubmit client st).final.gisData = st.gisData ∧
    (runSubmit client st).final.hoveredSite = st.hoveredSite := by
  refine ⟨?_, ?_, ?_, ?_, ?_, ?_⟩ <;> simp [runSubmit, h, submitSync]

/-- Witness for C2 at the whitespace-only location "   ". -/
theorem submit_blank_location_witness :
    (runSubmit failClient stateWhitespaceLoc).networkCalled = false ∧
    (runSubmit failClient stateWhitespaceLoc).final.error = some locationErrorMsg ∧
    (runSubmit failClient stateWhitespaceLoc).final.loading = stateWhitespaceLoc.loading ∧
    (runSubmit failClient stateWhitespaceLoc).afterSync = (runSubmit failClient stateWhitespaceLoc).final ∧
    (runSubmit failClient stateWhitespaceLoc).final.gisData = stateWhitespaceLoc.gisData ∧
    (runSubmit failClient stateWhitespaceLoc).final.hoveredSite = stateWhitespaceLoc.hoveredSite :=
  submit_blank_location failClient stateWhitespaceLoc (by decide)

/-- C4: a valid submission first clears error, result and hover and sets
loading; on a successful outcome the parsed result is stored with no
error; on a failed outcome the thrown message is stored with no result;
and in either case loading is cleared once the attempt concludes. -/
theorem submit_valid_flow (client : Nat → AttemptOutcome) (st : AppState)
    (h : ¬ jsTrim st.formData.location = "") :
    (runSubmit client st).afterSync.error = none ∧
    (runSubmit client st).afterSync.gisData = none ∧
    (runSubmit client st).afterSync.hoveredSite = none ∧
    (runSubmit client st).afterSync.loading = true ∧
    (∀ r, (callGeminiWithRetry client).outcome = Except.ok r →
      (runSubmit client st).final.gisData = some r ∧
      (runSubmit client st).final.error = none) ∧
    (∀ m, (callGeminiWithRetry client).outcome = Except.error m →
      (runSubmit client st).final.error = some m ∧
      (runSubmit client st).final.gisData = none) ∧
    (runSubmit client st).final.loading = false := by
  refine ⟨?_, ?_, ?_, ?_, ?_, ?_, ?_⟩
  · simp [runSubmit, h, submitSync]
  · simp [runSubmit, h, submitSync]
  · simp [runSubmit, h, submitSync]
  · simp [runSubmit, h, submitSync]
  · intro r hr
    simp [runSubmit, h, submitSync, submitAsync, hr, applyOutcome, mapSync,
      addAllMarkers, clearAllMarkers]
  · intro m hm
    simp [runSubmit, h, submitSync, submitAsync, hm, applyOutcome, mapSync]
  · rcases ho : (callGeminiWithRetry client).outcome with m | r <;>
      simp [runSubmit, h, submitSync, submitAsync, ho, applyOutcome, mapSync,
        addAllMarkers, clearAllMarkers]

/-- Witness for C4: the Miami submission against the always-successful
oracle stores the sample result, keeps no error and clears loading. -/
theorem submit_valid_flow_witness :
    (runSubmit okClient stateTyped).afterSync.loading = true ∧
    (runSubmit okClient stateTyped).final.gisData = some sampleResult ∧
    (runSubmit okClient stateTyped).final.error = none ∧
    (runSubmit okClient stateTyped).final.loading = false :=
  have hflow := submit_valid_flow okClient stateTyped (by decide)
  ⟨hflow.2.2.2.1, (hflow.2.2.2.2.1 sampleResult rfl).1,
    (hflow.2.2.2.2.1 sampleResult rfl).2, hflow.2.2.2.2.2.2⟩

/-- C5: when the first two attempts throw and the third returns a result,
the retry loop makes exactly three attempts separated by exactly the two
delays 500ms then 1000ms, returns that result, and the submission ends in
the success state: the result stored, no error, loading cleared. -/
theorem submit_third_attempt_succeeds (client : Nat → AttemptOutcome) (st : AppState)
    (r : GeospatialResult)
    (hloc : ¬ jsTrim st.formData.location = "")
    (h0 : (client 0).isSuccess = false)
    (h1 : (client 1).isSuccess = false)
    (h2 : client 2 = AttemptOutcome.success r) :
    (callGeminiWithRetry client).attemptsMade = 3 ∧
    (callGeminiWithRetry client).delays = [500, 1000] ∧
    (callGeminiWithRetry client).outcome = Except.ok r ∧
    (runSubmit client st).final.gisData = some r ∧
    (runSubmit client st).final.error = none ∧
    (runSubmit client st).final.loading = false := by
  obtain ⟨m0, e0⟩ := attemptResult_of_fail h0
  obtain ⟨m1, e1⟩ := attemptResult_of_fail h1
  have e2 : attemptResult (client 2) = Except.ok r := by rw [h2]; rfl
  have hr := retry_eq_of_ok2 e0 e1 e2
  refine ⟨?_, ?_, ?_, ?_, ?_, ?_⟩ <;>
    simp [hr, runSubmit, hloc, submitSync, submitAsync, applyOutcome, mapSync,
      addAllMarkers, clearAllMarkers]

/-- Witness for C5: the oracle that throws a 503 twice and succeeds on
its third attempt. -/
theorem submit_third_attempt_succeeds_witness :
    (callGeminiWithRetry thirdTryClient).attemptsMade = 3 ∧
    (callGeminiWithRetry thirdTryClient).delays = [500, 1000] ∧
    (callGeminiWithRetry thirdTryClient).outcome = Except.ok sampleResult ∧
    (runSubmit thirdTryClient stateTyped).final.gisData = some sampleResult ∧
    (runSubmit thirdTryClient stateTyped).final.error = none ∧
    (runSubmit thirdTryClient stateTyped).final.loading = false :=
  submit_third_attempt_succeeds thirdTryClient stateTyped sampleResult
    (by decide) (by decide) (by decide) (by decide)

/-- C6: when every attempt throws, the submission ends with the generic
connection message as the error, a null result, and loading cleared. -/
theorem submit_all_attempts_fail (client : Nat → AttemptOutcome) (st : AppState)
    (hloc : ¬ jsTrim st.formData.location = "")
    (h0 : (client 0).isSuccess = false)
    (h1 : (client 1).isSuccess = false)
    (h2 : (client 2).isSuccess = false) :
    (runSubmit client st).final.error = some connectionErrorMsg ∧
    (runSubmit client st).final.gisData = none ∧
    (runSubmit client st).final.loading = false := by
  obtain ⟨m0, e0⟩ := attemptResult_of_fail h0
  obtain ⟨m1, e1⟩ := attemptResult_of_fail h1
  obtain ⟨m2, e2⟩ := attemptResult_of_fail h2
  have hr := retry_eq_of_allfail e0 e1 e2
  refine ⟨?_, ?_, ?_⟩ <;>
    simp [hr, runSubmit, hloc, submitSync, submitAsync, applyOutcome, mapSync]

/-- Witness for C6: the network-down oracle. -/
theorem submit_all_attempts_fail_witness :
    (runSubmit failClient stateTyped).final.error = some connectionErrorMsg ∧
    (runSubmit failClient stateTyped).final.gisData = none ∧
    (runSubmit failClient stateTyped).final.loading = false :=
  submit_all_attempts_fail failClient stateTyped
    (by decide) (by decide) (by decide) (by decide)

/-- C3 (amended): in every reachable state, whenever a current result is
present the map holds exactly one marker per site of that result, in
order and with no leftovers (the effect removes the old markers before
adding the new ones); but while the current result is null the markers of
the most recent result persist: no step that leaves the result null
changes the marker list, so markers are NOT cleared when a new submission
resets the result to null. -/
theorem submitSync_markers_inv (st : AppState)
    (ih : ∀ r, st.gisData = some r → st.markers = r.sites) :
    ∀ r, (submitSync st).gisData = some r → (submitSync st).markers = r.sites := by
  intro r hrr
  by_cases hb : jsTrim st.formData.location = ""
  · simp only [submitSync, if_pos hb] at hrr ⊢
    exact ih r hrr
  · simp only [submitSync, if_neg hb] at hrr
    exact Option.noConfusion hrr

theorem submitAsync_markers_inv (client : Nat → AttemptOutcome) (st : AppState)
    (_ih : ∀ r, st.gisData = some r → st.markers = r.sites) :
    ∀ r, (submitAsync client st).gisData = some r → (submitAsync client st).markers = r.sites := by
  rcases ho : (callGeminiWithRetry client).outcome with m | r2
  · cases hg : st.gisData with
    | none =>
      intro r hrr
      simp [submitAsync, ho, applyOutcome, mapSync, hg] at hrr
    | some r0 =>
      intro r hrr
      have he : r0 = r := by
        simpa [submitAsync, ho, applyOutcome, mapSync, hg] using hrr
      subst he
      simp [submitAsync, ho, applyOutcome, mapSync, hg, addAllMarkers, clearAllMarkers]
  · intro r hrr
    have he : r2 = r := by
      simpa [submitAsync, ho, applyOutcome, mapSync] using hrr
    subst he
    simp [submitAsync, ho, applyOutcome, mapSync, addAllMarkers, clearAllMarkers]

theorem submitAsync_markers_of_null (client : Nat → AttemptOutcome) (st : AppState)
    (hnull : (submitAsync client st).gisData = none) :
    (submitAsync client st).markers = st.markers := by
  rcases ho : (callGeminiWithRetry client).outcome with m | r2
  · cases hg : st.gisData with
    | none => simp [submitAsync, ho, applyOutcome, mapSync, hg]
    | some r0 => simp [submitAsync, ho, applyOutcome, mapSync, hg] at hnull
  · simp [submitAsync, ho, applyOutcome, mapSync] at hnull

theorem markers_track_current_result :
    (∀ st : AppState, Reachable st → ∀ r, st.gisData = some r → st.markers = r.sites) ∧
    (∀ st st2 : AppState, Step st st2 → st2.gisData = none → st2.markers = st.markers) := by
  constructor
  · intro st hst
    induction hst with
    | init => intro r hr; cases hr
    | step hr hs ih =>
      cases hs with
      | inputLocation v => exact ih
      | inputDemographics v hv => exact ih
      | inputTraffic v hv => exact ih
      | inputAmenities v hv => exact ih
      | submit h => exact submitSync_markers_inv _ ih
      | complete client h => exact submitAsync_markers_inv client _ ih
      | markerOver s hs2 => exact ih
      | markerOut => exact ih
  · intro st st2 hs hnull
    cases hs with
    | inputLocation v => rfl
    | inputDemographics v hv => rfl
    | inputTraffic v hv => rfl
    | inputAmenities v hv => rfl
    | submit h =>
      unfold submitSync
      split <;> rfl
    | complete client h => exact submitAsync_markers_of_null client _ hnull
    | markerOver s hs2 => rfl
    | markerOut => rfl

/-- C3 counterexample: a reachable state (a successful one-site query
followed by a second submission that fails) in which the current result
is null yet the marker of the previous result is still on the map, so the
markers do not reflect the (empty) site list of a null current result. -/
theorem markers_nonempty_with_null_result :
    Reachable stateFailedSecond ∧
    stateFailedSecond.gisData = none ∧
    stateFailedSecond.markers = [sampleSite] ∧
    stateFailedSecond.markers ≠ [] :=
  ⟨reachable_stateFailedSecond, by decide, by decide, by decide⟩

/-- C8: the mouseover handler wired on the marker placed for a site sets
the hovered-site state to exactly that site, the mouseout handler clears
it to none, neither touches the result or the marker list, and both
events are available on every placed marker. -/
theorem marker_hover_handlers (st : AppState) (s : Site) (hs : s ∈ st.markers) :
    (markerMouseover s st).hoveredSite = some s ∧
    (markerMouseout (markerMouseover s st)).hoveredSite = none ∧
    (markerMouseover s st).gisData = st.gisData ∧
    (markerMouseover s st).markers = st.markers ∧
    Step st (markerMouseover s st) ∧
    Step (markerMouseover s st) (markerMouseout (markerMouseover s st)) :=
  ⟨rfl, rfl, rfl, rfl, Step.markerOver st s hs, Step.markerOut _⟩

/-- Witness for C8 at the marker placed after the successful Miami query. -/
theorem marker_hover_handlers_witness :
    (markerMouseover sampleSite stateSuccess).hoveredSite = some sampleSite ∧
    (markerMouseout (markerMouseover sampleSite stateSuccess)).hoveredSite = none ∧
    (markerMouseover sampleSite stateSuccess).gisData = stateSuccess.gisData ∧
    (markerMouseover sampleSite stateSuccess).markers = stateSuccess.markers ∧
    Step stateSuccess (markerMouseover sampleSite stateSuccess) ∧
    Step (markerMouseover sampleSite stateSuccess)
      (markerMouseout (markerMouseover sampleSite stateSuccess)) :=
  marker_hover_handlers stateSuccess sampleSite (by decide)

/-- C9 (amended): which overlays render is a pure function of the loading
flag, the presence of a result and the presence of a hovered site; the
loading spinner excludes the other overlays, and in every state where the
hovered site is none, or a result is present, or loading is set, exactly
one of the four overlay states renders.  The one exception, reachable
through a marker left over from a previous result, is a state with no
result, not loading and a site hovered, where the initial placeholder and
the hover-detail card render together. -/
theorem overlay_states_amended :
    (∀ st : AppState,
      st.loading = true ∨ st.gisData.isSome = true ∨ st.hoveredSite = none →
      overlayCount st = 1) ∧
    (∀ st : AppState, rendersLoadingOverlay st = true →
      rendersHoverCard st = false ∧ rendersPlaceholder st = false ∧
      rendersBareMap st = false) ∧
    (∀ st st2 : AppState, st.loading = st2.loading →
      st.gisData.isNone = st2.gisData.isNone →
      st.hoveredSite.isNone = st2.hoveredSite.isNone →
      rendersLoadingOverlay st = rendersLoadingOverlay st2 ∧
      rendersHoverCard st = rendersHoverCard st2 ∧
      rendersPlaceholder st = rendersPlaceholder st2 ∧
      rendersBareMap st = rendersBareMap st2) := by
  refine ⟨?_, ?_, ?_⟩
  · rintro ⟨fd, l, g, e, h, m⟩ hcond
    cases l <;> cases g <;> cases h <;>
      simp_all [overlayCount, rendersLoadingOverlay, rendersHoverCard,
        rendersPlaceholder, rendersBareMap]
  · rintro ⟨fd, l, g, e, h, m⟩ hl
    cases l <;>
      simp_all [rendersLoadingOverlay, rendersHoverCard, rendersPlaceholder,
        rendersBareMap]
  · rintro ⟨fd, l, g, e, h, m⟩ ⟨fd2, l2, g2, e2, h2, m2⟩ hL hG hH
    cases l <;> cases l2 <;> cases g <;> cases g2 <;> cases h <;> cases h2 <;>
      simp_all [rendersLoadingOverlay, rendersHoverCard, rendersPlaceholder,
        rendersBareMap]

/-- C9 counterexample: in the reachable state reached by hovering the
marker left over after a failed second query, both the initial
placeholder (no result, not loading) and the hover-detail card (site
hovered, not loading) render at once. -/
theorem overlay_two_at_once :
    Reachable stateStaleHover ∧
    rendersHoverCard stateStaleHover = true ∧
    rendersPlaceholder stateStaleHover = true ∧
    overlayCount stateStaleHover = 2 :=
  ⟨reachable_stateStaleHover, by decide, by decide, by decide⟩

/-- C7 (amended): for the Miami input parameters the constructed prompt
literally contains all five values in hyphen-stripped readable form; and
for every form state the prompt embeds the location and budget values
verbatim and each select value with its FIRST hyphen replaced by a space
(which strips the only hyphen of every option except "ride-share-hub",
whose second hyphen survives). -/
theorem prompt_embeds_parameters :
    (strContains (buildPrompt miamiForm) "Miami, FL" = true ∧
     strContains (buildPrompt miamiForm) "urban dense" = true ∧
     strContains (buildPrompt miamiForm) "highway adjacent" = true ∧
     strContains (buildPrompt miamiForm) "retail" = true ∧
     strContains (buildPrompt miamiForm) "medium" = true) ∧
    (∀ fd : FormData,
      strContains (buildPrompt fd) fd.location = true ∧
      strContains (buildPrompt fd) (jsReplaceFirstHyphen fd.demographics) = true ∧
      strContains (buildPrompt fd) (jsReplaceFirstHyphen fd.traffic) = true ∧
      strContains (buildPrompt fd) (jsReplaceFirstHyphen fd.amenities) = true ∧
      strContains (buildPrompt fd) fd.budget = true) := by
  refine ⟨⟨by decide, by decide, by decide, by decide, by decide⟩, ?_⟩
  intro fd
  refine ⟨?_, ?_, ?_, ?_, ?_⟩ <;> (unfold strContains; rw [buildPrompt_data])
  · exact hasSub_append_left _ (hasSub_self_append _ _)
  · exact hasSub_append_left _ (hasSub_append_left _ (hasSub_append_left _
      (hasSub_self_append _ _)))
  · exact hasSub_append_left _ (hasSub_append_left _ (hasSub_append_left _
      (hasSub_append_left _ (hasSub_append_left _ (hasSub_self_append _ _)))))
  · exact hasSub_append_left _ (hasSub_append_left _ (hasSub_append_left _
      (hasSub_append_left _ (hasSub_append_left _ (hasSub_append_left _
      (hasSub_append_left _ (hasSub_self_append _ _)))))))
  · exact hasSub_append_left _ (hasSub_append_left _ (hasSub_append_left _
      (hasSub_append_left _ (hasSub_append_left _ (hasSub_append_left _
      (hasSub_append_left _ (hasSub_append_left _ (hasSub_append_left _
      (hasSub_self_append _ _)))))))))

/-- C7 counterexample: with the reachable form state whose traffic value
is the select option "ride-share-hub", the constructed prompt contains
neither the raw value nor its fully hyphen-stripped form "ride share
hub"; only "ride share-hub" (first hyphen replaced) appears, because the
JavaScript `replace` with a string pattern replaces one occurrence. -/
theorem prompt_rideshare_not_embedded :
    Reachable stateRideShare ∧
    stateRideShare.formData.traffic = "ride-share-hub" ∧
    strContains (buildPrompt stateRideShare.formData) "ride-share-hub" = false ∧
    strContains (buildPrompt stateRideShare.formData) "ride share hub" = false ∧
    strContains (buildPrompt stateRideShare.formData) "ride share-hub" = true :=
  ⟨reachable_stateRideShare, by decide, by decide, by decide, by decide⟩

/-- C10: in every reachable state the budget field still holds its
initial value "medium" (no form control is named "budget", so no input
event can change it), and the prompt built from the state contains the
literal line fragment "Expected Scale/Budget: medium". -/
theorem budget_always_medium (st : AppState) (h : Reachable st) :
    st.formData.budget = "medium" ∧
    strContains (buildPrompt st.formData) "Expected Scale/Budget: medium" = true := by
  have hb : st.formData.budget = "medium" := by
    induction h with
    | init => rfl
    | step hr hs ih =>
      cases hs with
      | inputLocation v => simpa [applyInput] using ih
      | inputDemographics v hv => simpa [applyInput] using ih
      | inputTraffic v hv => simpa [applyInput] using ih
      | inputAmenities v hv => simpa [applyInput] using ih
      | submit h2 =>
        unfold submitSync
        split <;> exact ih
      | complete client h2 =>
        rcases ho : (callGeminiWithRetry client).outcome with m | r2
        · unfold submitAsync mapSync
          rw [ho]
          unfold applyOutcome
          split <;> exact ih
        · unfold submitAsync mapSync
          rw [ho]
          unfold applyOutcome
          split <;> exact ih
      | markerOver site hsite => exact ih
      | markerOut => exact ih
  refine ⟨hb, ?_⟩
  unfold strContains
  rw [buildPrompt_data, hb]
  exact hasSub_append_left _ (hasSub_append_left _ (hasSub_append_left _
    (hasSub_append_left _ (hasSub_append_left _ (hasSub_append_left _
    (hasSub_append_left _ (hasSub_append_left _ (by decide))))))))

/-- Witness for C10 at the initial state. -/
theorem budget_always_medium_witness :
    initialState.formData.budget = "medium" ∧
    strContains (buildPrompt initialState.formData) "Expected Scale/Budget: medium" = true :=
  budget_always_medium initialState Reachable.init

end EvGis
